import Mathlib

/-!
Verification of the humidityd collector (`src/main.py`).

The program is a single-file sensor daemon.  `main` initializes an
`AppContext` (connection pool), ensures the schema, acquires a DHT22
sensor handle, and then loops: read `temperature` and `humidity` from
the sensor, print both, insert them into the `readings` table when both
are present, and sleep 300 seconds; a `RuntimeError` raised anywhere in
the loop body is handled by printing `error.args[0]` and sleeping 2
seconds before re-polling; any other `Exception` causes
`dht_device.exit()` followed by a re-raise; a `finally` block around the
sensor-acquisition-and-loop region calls `ctx.close_pool()`.

The embedding below is a trace semantics: each iteration of the loop
consumes an environment record (the sensor read outcome and the database
write outcome, both chosen by the external world) and produces the list
of observable effects (prints, the parameterized insert, sleeps, the
sensor-handle release, the pool close) together with a control result.
Sensor values are opaque to the program (only compared against `None`
and passed through), so the machine is polymorphic in the value type.
The float sleep durations 2.0 and 300.0 of the source are modelled as
the naturals 2 and 300.
-/

namespace Humidityd

/-- Python exception values as the collector loop classifies them.
`runtimeError` carries the exception's `args` tuple (modelled as a list
of strings), since the transient handler indexes it via `error.args[0]`.
`indexError` is the `IndexError` that indexing an empty `args` raises.
`exception` is any other subclass of `Exception` (identified by its
class name), and `baseException` is an exception outside the `Exception`
hierarchy, such as `KeyboardInterrupt` or `SystemExit`, which the
source's `except Exception` clause does not catch. -/
inductive Exc where
  | runtimeError (args : List String)
  | indexError
  | exception (name : String)
  | baseException (name : String)
deriving DecidableEq, Repr

/-- Observable effects of the program, in the order they are performed:
the two value prints of lines 88-89, the parameterized insert of
`write_readings` carrying its two values, the error print of line 97,
a sleep of a given duration, the sensor-handle release
`dht_device.exit()` of line 101, and `ctx.close_pool()` of line 105. -/
inductive Ev (α : Type) where
  | printTemp (t : Option α)
  | printHum (h : Option α)
  | insert (t h : α)
  | printErr (msg : String)
  | sleep (d : Nat)
  | sensorExit
  | closePool
deriving DecidableEq, Repr

/-- Outcome of the two sensor attribute reads of lines 86-87: either
both complete, each yielding an optional value, or one of them raises.
If either read raises, the prints of lines 88-89 are not reached, so a
single exception outcome covers both attribute reads. -/
inductive ReadResult (α : Type) where
  | ok (temp hum : Option α)
  | err (e : Exc)
deriving DecidableEq, Repr

/-- Outcome the database driver gives a write_readings call that has an
initialized pool: `ok` — connection acquisition, the insert and the
commit all succeed; `failBefore e` — `pool.connection()` or
`conn.cursor()` raises `e` before `cur.execute` is reached, so no
insert is ever issued; `failAfter e` — the driver raises `e` at or
after the execute (a failing execute or a failing commit), with the one
parameterized insert already issued. -/
inductive WriteOutcome where
  | ok
  | failBefore (e : Exc)
  | failAfter (e : Exc)
deriving DecidableEq, Repr

/-- Environment input for one loop iteration: the sensor read outcome,
and the outcome the database driver gives the write, should one be
attempted. -/
structure IterEnv (α : Type) where
  read : ReadResult α
  write : WriteOutcome
deriving DecidableEq, Repr

/-- Control result of one execution of the loop body:
`ok` fell through to `time.sleep(300.0)` and continues;
`retry` executed the `continue` of line 99 after the short backoff;
`raised e` left the loop with exception `e` propagating. -/
inductive BodyResult where
  | ok
  | retry
  | raised (e : Exc)
deriving DecidableEq, Repr

/-- Final outcome of a (finite prefix of a) run: `running` means the
environment trace is exhausted with the loop still polling (the loop
itself is infinite), `fatal e` means the process terminated with
exception `e` propagating to the process boundary. -/
inductive Outcome where
  | running
  | fatal (e : Exc)
deriving DecidableEq, Repr

/-- State of the `AppContext` pool field for `close_pool`:
`self.pool` is `None` (`unopened`), an open `ConnectionPool`
(`opened`), or a `ConnectionPool` on which `close()` was already called
(`closed`). -/
inductive PoolState where
  | unopened
  | opened
  | closed
deriving DecidableEq, Repr

/-- AppContext.close_pool (lines 35-38): `if self.pool:
self.pool.close()`.  When `self.pool` is `None` nothing happens; the
pool object's own `close()` (psycopg_pool) closes an open pool and is a
safe no-op on an already-closed pool.  The `Except` result records that
the method can in principle raise; it never does. -/
def close_pool : PoolState → Except Exc PoolState
  | .unopened => .ok .unopened
  | .opened => .ok .closed
  | .closed => .ok .closed

/-- write_readings (lines 108-122).  With an uninitialized pool it
raises `RuntimeError("Connection pool not initialized")` before any
database work.  Otherwise the driver decides where the call fails, if
anywhere: a failure in `pool.connection()` or `conn.cursor()` happens
before `cur.execute` and issues no insert at all, while the execute of
the one parameterized `INSERT INTO readings (temperature, humidity,
recorded_at) VALUES (%s, %s, NOW())` with exactly the two given values
— the `insert` event — is followed by the possible failure of the
execute or commit itself. -/
def write_readings (pool : Option Unit) (t h : α) (w : WriteOutcome) :
    List (Ev α) × Option Exc :=
  match pool with
  | none => ([], some (Exc.runtimeError [("Connection pool not initialized")]))
  | some _ =>
    match w with
    | WriteOutcome.ok => ([Ev.insert t h], none)
    | WriteOutcome.failBefore e => ([], some e)
    | WriteOutcome.failAfter e => ([Ev.insert t h], some e)

/-- The two `except` clauses of lines 95-102, applied to an exception
raised in the `try` body.  A `RuntimeError` is handled by printing
`error.args[0]` and sleeping 2, then `continue`; when its `args` tuple
is empty that very indexing raises `IndexError`, which propagates out of
the handler (sibling handlers of the same `try` do not apply), without
`dht_device.exit()`.  An exception outside the `Exception` hierarchy is
caught by neither clause and propagates directly, also without
`dht_device.exit()`.  Any other `Exception` hits the second clause:
`dht_device.exit()` then `raise error`. -/
def handleExc (e : Exc) : List (Ev α) × BodyResult :=
  match e with
  | .runtimeError [] => ([], .raised .indexError)
  | .runtimeError (a :: _) => ([Ev.printErr a, Ev.sleep 2], .retry)
  | .baseException n => ([], .raised (.baseException n))
  | e => ([Ev.sensorExit], .raised e)

/-- One iteration of the `while True` body (lines 84-103).  The sensor
reads happen first; on success both values are printed, and if both are
present `write_readings` is called.  An exception from either place is
dispatched to the `except` clauses.  Falling through reaches
`time.sleep(300.0)` on line 103 (which sits after the `try` statement,
inside the loop). -/
def loopBody (pool : Option Unit) (env : IterEnv α) :
    List (Ev α) × BodyResult :=
  match env.read with
  | .err e => handleExc e
  | .ok t h =>
    match t, h with
    | some vt, some vh =>
      match write_readings pool vt vh env.write with
      | (wevs, none) =>
        ([Ev.printTemp t, Ev.printHum h] ++ wevs ++ [Ev.sleep 300], .ok)
      | (wevs, some e) =>
        match handleExc e with
        | (hevs, r) => ([Ev.printTemp t, Ev.printHum h] ++ wevs ++ hevs, r)
    | _, _ => ([Ev.printTemp t, Ev.printHum h, Ev.sleep 300], .ok)

/-- The `while True` loop, driven by a finite trace of environment
inputs: iterate `loopBody` until an exception propagates (`fatal`) or
the trace is exhausted with the loop still live (`running`),
concatenating the emitted events. -/
def runLoop (pool : Option Unit) : List (IterEnv α) → List (Ev α) × Outcome
  | [] => ([], Outcome.running)
  | it :: rest =>
    match loopBody pool it with
    | (evs, .raised e) => (evs, Outcome.fatal e)
    | (evs, _) =>
      match runLoop pool rest with
      | (evs2, o) => (evs ++ evs2, o)

/-- main (lines 73-105).  `init_pool` always succeeds here (the pool is
set before anything observable).  `create_table_if_not_exists` runs
BEFORE the `try`/`finally`, so a schema failure (`schemaFail`)
propagates without `close_pool` ever running.  Inside the `try`, the
DHT22 constructor may fail (`acquireFail`); any exception leaving the
`try` region — constructor failure or an exception propagating out of
the loop — triggers the `finally`, which calls `close_pool` exactly
once.  When the environment trace runs out the process is still alive,
so the `finally` has not run. -/
def mainRun (schemaFail : Option Exc) (acquireFail : Option Exc)
    (iters : List (IterEnv α)) : List (Ev α) × Outcome :=
  match schemaFail with
  | some e => ([], Outcome.fatal e)
  | none =>
    match acquireFail with
    | some e => ([Ev.closePool], Outcome.fatal e)
    | none =>
      match runLoop (some ()) iters with
      | (evs, Outcome.running) => (evs, Outcome.running)
      | (evs, Outcome.fatal e) => (evs ++ [Ev.closePool], Outcome.fatal e)

/-- Discriminator: is this event the parameterized insert? -/
def Ev.isInsert : Ev α → Bool
  | .insert _ _ => true
  | _ => false

/-- Discriminator: is this event a sleep (of any duration)? -/
def Ev.isSleep : Ev α → Bool
  | .sleep _ => true
  | _ => false

/-- Discriminator: is this event the sensor-handle release? -/
def Ev.isSensorExit : Ev α → Bool
  | .sensorExit => true
  | _ => false

/-- Discriminator: is this event the pool close? -/
def Ev.isClosePool : Ev α → Bool
  | .closePool => true
  | _ => false

/-- The loop body never emits a pool close: `close_pool` is reached
only through the `finally` block of `main`. -/
theorem loopBody_no_closePool {α : Type} (pool : Option Unit) (env : IterEnv α) :
    ((loopBody pool env).1).countP Ev.isClosePool = 0 := by
  obtain ⟨r, w⟩ := env
  cases r with
  | err e =>
    cases e with
    | runtimeError args => cases args <;> rfl
    | indexError => rfl
    | exception n => rfl
    | baseException n => rfl
  | ok t h =>
    cases t with
    | none => rfl
    | some vt =>
      cases h with
      | none => rfl
      | some vh =>
        cases pool with
        | none => rfl
        | some u =>
          cases w with
          | ok => rfl
          | failBefore e =>
            cases e with
            | runtimeError args => cases args <;> rfl
            | indexError => rfl
            | exception n => rfl
            | baseException n => rfl
          | failAfter e =>
            cases e with
            | runtimeError args => cases args <;> rfl
            | indexError => rfl
            | exception n => rfl
            | baseException n => rfl

/-- A loop-body execution that does not propagate an exception never
releases the sensor handle: `dht_device.exit()` runs only on the
re-raising path of the second `except` clause. -/
theorem loopBody_no_sensorExit_of_continue {α : Type} (pool : Option Unit)
    (env : IterEnv α) (h : ∀ e, (loopBody pool env).2 ≠ BodyResult.raised e) :
    ((loopBody pool env).1).countP Ev.isSensorExit = 0 := by
  obtain ⟨r, w⟩ := env
  cases r with
  | err e =>
    cases e with
    | runtimeError args =>
      cases args with
      | nil => exact absurd rfl (h Exc.indexError)
      | cons a as => rfl
    | indexError => exact absurd rfl (h Exc.indexError)
    | exception n => exact absurd rfl (h (Exc.exception n))
    | baseException n => exact absurd rfl (h (Exc.baseException n))
  | ok t h2 =>
    cases t with
    | none => rfl
    | some vt =>
      cases h2 with
      | none => rfl
      | some vh =>
        cases pool with
        | none => rfl
        | some u =>
          cases w with
          | ok => rfl
          | failBefore e =>
            cases e with
            | runtimeError args =>
              cases args with
              | nil => exact absurd rfl (h Exc.indexError)
              | cons a as => rfl
            | indexError => exact absurd rfl (h Exc.indexError)
            | exception n => exact absurd rfl (h (Exc.exception n))
            | baseException n => exact absurd rfl (h (Exc.baseException n))
          | failAfter e =>
            cases e with
            | runtimeError args =>
              cases args with
              | nil => exact absurd rfl (h Exc.indexError)
              | cons a as => rfl
            | indexError => exact absurd rfl (h Exc.indexError)
            | exception n => exact absurd rfl (h (Exc.exception n))
            | baseException n => exact absurd rfl (h (Exc.baseException n))

/-- The loop never emits a pool close over any environment trace. -/
theorem runLoop_no_closePool {α : Type} (pool : Option Unit)
    (iters : List (IterEnv α)) :
    ((runLoop pool iters).1).countP Ev.isClosePool = 0 := by
  induction iters with
  | nil => rfl
  | cons it rest ih =>
    have hb0 := loopBody_no_closePool pool it
    simp only [runLoop]
    cases hb : loopBody pool it with
    | mk evs r =>
      rw [hb] at hb0
      cases r with
      | raised e => simpa using hb0
      | ok =>
        cases hr : runLoop pool rest with
        | mk evs2 o =>
          rw [hr] at ih
          simp_all [List.countP_append]
      | retry =>
        cases hr : runLoop pool rest with
        | mk evs2 o =>
          rw [hr] at ih
          simp_all [List.countP_append]

/-- Running a prefix of iterations none of which propagates an
exception produces some event list free of sensor releases and pool
closes, and then behaves as the run of the remaining trace. -/
theorem runLoop_clean_prefix {α : Type} (pool : Option Unit)
    (pre l : List (IterEnv α))
    (hpre : ∀ it ∈ pre, ∀ e, (loopBody pool it).2 ≠ BodyResult.raised e) :
    ∃ evs0 : List (Ev α),
      runLoop pool (pre ++ l) = (evs0 ++ (runLoop pool l).1, (runLoop pool l).2) ∧
      evs0.countP Ev.isSensorExit = 0 ∧ evs0.countP Ev.isClosePool = 0 := by
  induction pre with
  | nil => exact ⟨[], by simp, rfl, rfl⟩
  | cons it pre ih =>
    have hit : ∀ e, (loopBody pool it).2 ≠ BodyResult.raised e :=
      fun e => hpre it (by simp) e
    have hse1 := loopBody_no_sensorExit_of_continue pool it hit
    have hcp1 := loopBody_no_closePool pool it
    obtain ⟨evs0, heq, hse, hcp⟩ := ih (fun it2 hm e => hpre it2 (by simp [hm]) e)
    cases hb : loopBody pool it with
    | mk evs r =>
      rw [hb] at hse1 hcp1
      refine ⟨evs ++ evs0, ?_, ?_, ?_⟩
      · cases r with
        | raised e =>
          rw [hb] at hit
          exact absurd rfl (hit e)
        | ok =>
          simp [List.cons_append, runLoop, hb, List.append_eq, heq, List.append_assoc]
        | retry =>
          simp [List.cons_append, runLoop, hb, List.append_eq, heq, List.append_assoc]
      · simp [List.countP_append, hse1, hse]
      · simp [List.countP_append, hcp1, hcp]

/-- C4 counterexample: the claim says every poll in which the sensor
yields both values issues exactly one insert with those values.  When
the driver fails before `cur.execute` is reached — `pool.connection()`
raising on a pool timeout or an unreachable store — zero inserts are
issued for that poll, not one. -/
theorem c4_counterexample :
    ((loopBody (some ())
        ⟨ReadResult.ok (some (1 : Int)) (some 2),
          WriteOutcome.failBefore (Exc.exception ("PoolTimeout"))⟩).1.filter
      Ev.isInsert = ([] : List (Ev Int))) ∧
    ((loopBody (some ())
        ⟨ReadResult.ok (some (1 : Int)) (some 2),
          WriteOutcome.failBefore (Exc.exception ("PoolTimeout"))⟩).1.filter
      Ev.isInsert ≠ [Ev.insert (1 : Int) 2]) :=
  ⟨rfl, by decide⟩

/-- C4 amended: for every poll in which the sensor yields both a
temperature and a humidity value, at most one parameterized insert is
issued, and it carries exactly those two values (the timestamp is the
store-assigned NOW() inside the SQL text): exactly one insert when the
write path reaches the execute — on success, and also when the driver
fails at or after the execute — and zero inserts when the driver fails
before the execute.  The pool is the one `main` initialized before the
loop. -/
theorem c4_insert_amended {α : Type} (t h : α) (e : Exc) :
    ((loopBody (some ()) ⟨ReadResult.ok (some t) (some h),
        WriteOutcome.ok⟩).1.filter Ev.isInsert = [Ev.insert t h]) ∧
    ((loopBody (some ()) ⟨ReadResult.ok (some t) (some h),
        WriteOutcome.failAfter e⟩).1.filter Ev.isInsert = [Ev.insert t h]) ∧
    ((loopBody (some ()) ⟨ReadResult.ok (some t) (some h),
        WriteOutcome.failBefore e⟩).1.filter Ev.isInsert = []) := by
  refine ⟨rfl, ?_, ?_⟩
  · cases e with
    | runtimeError args => cases args <;> rfl
    | indexError => rfl
    | exception n => rfl
    | baseException n => rfl
  · cases e with
    | runtimeError args => cases args <;> rfl
    | indexError => rfl
    | exception n => rfl
    | baseException n => rfl

/-- C5: for every poll in which the sensor read succeeds but either
value is absent, zero inserts are issued, the partial reading is
discarded without any error handling, and the iteration falls through
to the long-interval sleep: its events are exactly the two value prints
followed by sleep 300, with result `ok`. -/
theorem c5_partial_reading_discarded {α : Type} (t h : Option α) (w : WriteOutcome)
    (hmiss : t = none ∨ h = none) :
    loopBody (some ()) ⟨ReadResult.ok t h, w⟩
      = ([Ev.printTemp t, Ev.printHum h, Ev.sleep 300], BodyResult.ok) := by
  cases t with
  | none => rfl
  | some vt =>
    cases h with
    | none => rfl
    | some vh =>
      rcases hmiss with h1 | h1 <;> exact Option.noConfusion h1

/-- Witness for C5 at a concrete input: temperature absent,
humidity 55. -/
theorem c5_witness :
    loopBody (some ()) ⟨ReadResult.ok none (some (55 : Int)), WriteOutcome.ok⟩
      = ([Ev.printTemp none, Ev.printHum (some 55), Ev.sleep 300], BodyResult.ok) :=
  c5_partial_reading_discarded none (some 55) WriteOutcome.ok (Or.inl rfl)

/-- C6: between two consecutive successful polls there is exactly the
long-interval sleep of 300 units and no short backoff: any iteration
that completes normally (reaches line 103 and continues, result `ok`)
has `[sleep 300]` as its full list of sleep events, so the delay
separating it from the next poll is 300, never 2. -/
theorem c6_steady_cadence_long_sleep {α : Type} (pool : Option Unit) (env : IterEnv α)
    (hok : (loopBody pool env).2 = BodyResult.ok) :
    (loopBody pool env).1.filter Ev.isSleep = [Ev.sleep 300] := by
  obtain ⟨r, w⟩ := env
  cases r with
  | err e =>
    cases e with
    | runtimeError args =>
      cases args <;> simp [loopBody, handleExc] at hok
    | indexError => simp [loopBody, handleExc] at hok
    | exception n => simp [loopBody, handleExc] at hok
    | baseException n => simp [loopBody, handleExc] at hok
  | ok t h =>
    cases t with
    | none => cases h <;> rfl
    | some vt =>
      cases h with
      | none => rfl
      | some vh =>
        cases pool with
        | none => simp [loopBody, write_readings, handleExc] at hok
        | some u =>
          cases w with
          | ok => rfl
          | failBefore e =>
            cases e with
            | runtimeError args =>
              cases args <;> simp [loopBody, write_readings, handleExc] at hok
            | indexError => simp [loopBody, write_readings, handleExc] at hok
            | exception n => simp [loopBody, write_readings, handleExc] at hok
            | baseException n => simp [loopBody, write_readings, handleExc] at hok
          | failAfter e =>
            cases e with
            | runtimeError args =>
              cases args <;> simp [loopBody, write_readings, handleExc] at hok
            | indexError => simp [loopBody, write_readings, handleExc] at hok
            | exception n => simp [loopBody, write_readings, handleExc] at hok
            | baseException n => simp [loopBody, write_readings, handleExc] at hok

/-- Witness for C6 at a concrete input: a fully successful iteration
(temperature 21, humidity 47, write succeeds). -/
theorem c6_witness :
    (loopBody (some ())
        ⟨ReadResult.ok (some (21 : Int)) (some 47), WriteOutcome.ok⟩).1.filter
        Ev.isSleep = [Ev.sleep 300] :=
  c6_steady_cadence_long_sleep (some ())
    ⟨ReadResult.ok (some 21) (some 47), WriteOutcome.ok⟩ rfl

/-- C8: close_pool is idempotent and never raises.  On a never-opened
pool (`self.pool is None`) it is a no-op; on an already-closed pool it
succeeds; and for every pool state it returns successfully with a state
on which calling it again succeeds and is a fixed point. -/
theorem c8_close_pool_idempotent_never_raises :
    close_pool PoolState.unopened = Except.ok PoolState.unopened ∧
    close_pool PoolState.closed = Except.ok PoolState.closed ∧
    ∀ s : PoolState, ∃ s2 : PoolState,
      close_pool s = Except.ok s2 ∧ close_pool s2 = Except.ok s2 := by
  refine ⟨rfl, rfl, ?_⟩
  intro s
  cases s with
  | unopened => exact ⟨PoolState.unopened, rfl, rfl⟩
  | opened => exact ⟨PoolState.closed, rfl, rfl⟩
  | closed => exact ⟨PoolState.closed, rfl, rfl⟩

/-- C9: the transient handler indexes `error.args[0]`; for a transient
fault whose `args` tuple is empty, the handler itself raises
`IndexError`, so the run terminates and the fault escalates: the
complete event trace holds no sensor-handle release and exactly the one
pool close from the `finally` block, and the propagating exception is
the handler's IndexError. -/
theorem c9_empty_args_transient_fault_escalates :
    mainRun none none
        [(⟨ReadResult.err (Exc.runtimeError []), WriteOutcome.ok⟩ : IterEnv Int)]
        = ([Ev.closePool], Outcome.fatal Exc.indexError) ∧
    (mainRun none none
        [(⟨ReadResult.err (Exc.runtimeError []), WriteOutcome.ok⟩ : IterEnv Int)]).1.countP
        Ev.isSensorExit = 0 :=
  ⟨rfl, rfl⟩

/-- C10: write_readings called with an uninitialized pool raises
`RuntimeError("Connection pool not initialized")` — the very class the
loop's first `except` clause catches — so inside the loop such a write
fault is handled as a transient sensor fault: the message is printed,
the short 2-unit backoff runs, and the iteration retries, rather than
taking the fatal path. -/
theorem c10_uninitialized_pool_write_is_transient {α : Type} (t h : α) (w : WriteOutcome) :
    write_readings none t h w
        = ([], some (Exc.runtimeError [("Connection pool not initialized")])) ∧
    loopBody (none : Option Unit) ⟨ReadResult.ok (some t) (some h), w⟩
        = ([Ev.printTemp (some t), Ev.printHum (some h),
            Ev.printErr ("Connection pool not initialized"), Ev.sleep 2],
           BodyResult.retry) :=
  ⟨rfl, rfl⟩

/-- C1 counterexample: the claim says an insertReading failure never
stops the loop and is followed by the long-interval sleep.  On the
code, a write failure of a class other than RuntimeError (a driver
error is not a RuntimeError) hits the second `except` clause: the
sensor handle is released, the exception re-raised, and the run
terminates fatally with no sleep at all. -/
theorem c1_counterexample :
    mainRun none none
        [(⟨ReadResult.ok (some (1 : Int)) (some 2),
            WriteOutcome.failAfter (Exc.exception ("WriteError"))⟩ : IterEnv Int)]
      = ([Ev.printTemp (some 1), Ev.printHum (some 2), Ev.insert 1 2,
          Ev.sensorExit, Ev.closePool],
         Outcome.fatal (Exc.exception ("WriteError"))) := rfl

/-- C1 amended: when insertReading fails with a RuntimeError carrying a
message — whether before or after the insert executes — the failure is
surfaced (the message printed) and the loop does not terminate, but it
transitions to the SHORT backoff sleep of 2 units (the `continue` path)
and keeps polling; when insertReading fails with any other Exception
class, at either failure point, the sensor handle is released and the
loop terminates with that failure propagating. -/
theorem c1_write_failure_amended {α : Type} (t h : α) (a : String)
    (as : List String) (n : String) (rest : List (IterEnv α)) :
    (runLoop (some ())
        (⟨ReadResult.ok (some t) (some h),
           WriteOutcome.failAfter (Exc.runtimeError (a :: as))⟩ :: rest)
      = ([Ev.printTemp (some t), Ev.printHum (some h), Ev.insert t h,
          Ev.printErr a, Ev.sleep 2] ++ (runLoop (some ()) rest).1,
         (runLoop (some ()) rest).2)) ∧
    (runLoop (some ())
        (⟨ReadResult.ok (some t) (some h),
           WriteOutcome.failBefore (Exc.runtimeError (a :: as))⟩ :: rest)
      = ([Ev.printTemp (some t), Ev.printHum (some h),
          Ev.printErr a, Ev.sleep 2] ++ (runLoop (some ()) rest).1,
         (runLoop (some ()) rest).2)) ∧
    (loopBody (some ()) ⟨ReadResult.ok (some t) (some h),
        WriteOutcome.failAfter (Exc.exception n)⟩
      = ([Ev.printTemp (some t), Ev.printHum (some h), Ev.insert t h, Ev.sensorExit],
         BodyResult.raised (Exc.exception n))) ∧
    (loopBody (some ()) ⟨ReadResult.ok (some t) (some h),
        WriteOutcome.failBefore (Exc.exception n)⟩
      = ([Ev.printTemp (some t), Ev.printHum (some h), Ev.sensorExit],
         BodyResult.raised (Exc.exception n))) := by
  refine ⟨?_, ?_, rfl, rfl⟩
  · cases hr : runLoop (some ()) rest with
    | mk evs2 o => simp [runLoop, loopBody, write_readings, handleExc, hr]
  · cases hr : runLoop (some ()) rest with
    | mk evs2 o => simp [runLoop, loopBody, write_readings, handleExc, hr]

/-- C2 counterexample: the claim says the pool is closed exactly once
on every termination, including an initialization failure after the
pool is opened.  In the code `create_table_if_not_exists()` runs before
the `try`/`finally`, so a schema-ensure failure terminates the process
with the pool never closed: zero pool-close events. -/
theorem c2_counterexample :
    mainRun (some (Exc.exception ("SchemaError"))) none ([] : List (IterEnv Int))
        = ([], Outcome.fatal (Exc.exception ("SchemaError"))) ∧
    (mainRun (some (Exc.exception ("SchemaError"))) none
        ([] : List (IterEnv Int))).1.countP Ev.isClosePool = 0 :=
  ⟨rfl, rfl⟩

/-- C2 amended: once schema-ensure has succeeded, every termination of
the collector — sensor-acquisition failure, fatal fault during the
loop, or an uncaught interruption — closes the pool exactly once
(through the `finally` block); but a schema-ensure failure after the
pool is opened terminates without closing the pool at all. -/
theorem c2_pool_closed_amended {α : Type} (acq : Option Exc)
    (iters : List (IterEnv α)) :
    (∀ e : Exc, (mainRun (some e) acq iters).1.countP Ev.isClosePool = 0) ∧
    (∀ e : Exc, (mainRun (none : Option Exc) acq iters).2 = Outcome.fatal e →
      (mainRun (none : Option Exc) acq iters).1.countP Ev.isClosePool = 1) := by
  constructor
  · intro e
    rfl
  · intro e hf
    cases acq with
    | some e2 => rfl
    | none =>
      have h0 := runLoop_no_closePool (some ()) iters
      cases hr : runLoop (some ()) iters with
      | mk evs o =>
        rw [hr] at h0
        cases o with
        | running => simp [mainRun, hr] at hf
        | fatal e2 =>
          simp [mainRun, hr, List.countP_append, List.countP_cons,
            List.countP_nil, Ev.isClosePool, h0]

/-- Witness for C2 amended at a concrete input: a fatal sensor fault on
the first poll closes the pool exactly once. -/
theorem c2_witness :
    (mainRun (none : Option Exc) none
        [(⟨ReadResult.err (Exc.exception ("E")), WriteOutcome.ok⟩ : IterEnv Int)]).1.countP
      Ev.isClosePool = 1 :=
  (c2_pool_closed_amended none
    [(⟨ReadResult.err (Exc.exception ("E")), WriteOutcome.ok⟩ : IterEnv Int)]).2
    (Exc.exception ("E")) rfl

/-- C3: the spec and the code's own comment ("Errors happen fairly
often, DHT's are hard to read, just keep going") intend every transient
fault to be reported, backed off 2 units and re-polled, for arbitrarily
many consecutive faults.  This holds for every transient fault carrying
a message (first conjunct: a run of any number of message-carrying
transient faults emits exactly one report and one 2-unit sleep per
fault and leaves the loop running).  But the handler evaluates
`error.args[0]`, so a RuntimeError whose `args` tuple is empty crashes
the handler with IndexError and terminates the loop (second conjunct) —
the code contradicts its stated keep-going intent on that input. -/
theorem c3_transient_faults_eval :
    (∀ msgs : List String,
      runLoop (some ())
          (msgs.map fun m =>
            (⟨ReadResult.err (Exc.runtimeError [m]), WriteOutcome.ok⟩ : IterEnv Int))
        = ((msgs.map fun m => [Ev.printErr m, Ev.sleep (2 : Nat)]).flatten,
           Outcome.running)) ∧
    mainRun none none
        [(⟨ReadResult.err (Exc.runtimeError [("checksum mismatch")]),
            WriteOutcome.ok⟩ : IterEnv Int),
         (⟨ReadResult.err (Exc.runtimeError []), WriteOutcome.ok⟩ : IterEnv Int)]
      = ([Ev.printErr ("checksum mismatch"), Ev.sleep 2, Ev.closePool],
         Outcome.fatal Exc.indexError) := by
  constructor
  · intro msgs
    induction msgs with
    | nil => rfl
    | cons m ms ih =>
      simp only [List.map_cons, runLoop, loopBody, handleExc, ih,
        List.flatten_cons]
  · rfl

/-- C7 counterexample: the claim says every non-transient failure
raised during Polling releases the sensor handle exactly once.  A
failure outside the Exception hierarchy — KeyboardInterrupt from an
external interruption, delivered during the poll — is caught by
neither `except` clause, so it propagates with the pool closed by the
`finally` but with ZERO sensor-handle releases. -/
theorem c7_counterexample :
    mainRun none none
        [(⟨ReadResult.err (Exc.baseException ("KeyboardInterrupt")),
            WriteOutcome.ok⟩ : IterEnv Int)]
      = ([Ev.closePool], Outcome.fatal (Exc.baseException ("KeyboardInterrupt"))) ∧
    (mainRun none none
        [(⟨ReadResult.err (Exc.baseException ("KeyboardInterrupt")),
            WriteOutcome.ok⟩ : IterEnv Int)]).1.countP
      Ev.isSensorExit = 0 :=
  ⟨rfl, rfl⟩

/-- C7 amended: after any prefix of iterations that propagate no
exception, a non-transient failure of the Exception class raised
during Polling releases the sensor handle exactly once, closes the
pool exactly once, and propagates unmodified; a failure outside the
Exception class (an external interruption) propagates unmodified with
the pool closed exactly once but the sensor handle never released. -/
theorem c7_fatal_failure_amended {α : Type} (pre rest : List (IterEnv α))
    (n : String) (w w2 : WriteOutcome)
    (hpre : ∀ it ∈ pre, ∀ e, (loopBody (some ()) it).2 ≠ BodyResult.raised e) :
    (((mainRun none none
        (pre ++ ⟨ReadResult.err (Exc.exception n), w⟩ :: rest)).1.countP
          Ev.isSensorExit = 1) ∧
     ((mainRun none none
        (pre ++ ⟨ReadResult.err (Exc.exception n), w⟩ :: rest)).1.countP
          Ev.isClosePool = 1) ∧
     (mainRun none none
        (pre ++ ⟨ReadResult.err (Exc.exception n), w⟩ :: rest)).2
        = Outcome.fatal (Exc.exception n)) ∧
    (((mainRun none none
        (pre ++ ⟨ReadResult.err (Exc.baseException n), w2⟩ :: rest)).1.countP
          Ev.isSensorExit = 0) ∧
     ((mainRun none none
        (pre ++ ⟨ReadResult.err (Exc.baseException n), w2⟩ :: rest)).1.countP
          Ev.isClosePool = 1) ∧
     (mainRun none none
        (pre ++ ⟨ReadResult.err (Exc.baseException n), w2⟩ :: rest)).2
        = Outcome.fatal (Exc.baseException n)) := by
  obtain ⟨evs0, heq, hse, hcp⟩ :=
    runLoop_clean_prefix (some ()) pre
      (⟨ReadResult.err (Exc.exception n), w⟩ :: rest) hpre
  obtain ⟨evs1, heq2, hse2, hcp2⟩ :=
    runLoop_clean_prefix (some ()) pre
      (⟨ReadResult.err (Exc.baseException n), w2⟩ :: rest) hpre
  constructor
  · have hl : runLoop (some ())
        ((⟨ReadResult.err (Exc.exception n), w⟩ : IterEnv α) :: rest)
        = ([Ev.sensorExit], Outcome.fatal (Exc.exception n)) := rfl
    rw [hl] at heq
    refine ⟨?_, ?_, ?_⟩ <;>
      simp [mainRun, heq, List.countP_append, List.countP_cons, List.countP_nil,
        Ev.isSensorExit, Ev.isClosePool, hse, hcp]
  · have hl : runLoop (some ())
        ((⟨ReadResult.err (Exc.baseException n), w2⟩ : IterEnv α) :: rest)
        = ([], Outcome.fatal (Exc.baseException n)) := rfl
    rw [hl] at heq2
    refine ⟨?_, ?_, ?_⟩ <;>
      simp [mainRun, heq2, List.countP_append, List.countP_cons, List.countP_nil,
        Ev.isSensorExit, Ev.isClosePool, hse2, hcp2]

/-- Witness for C7 amended at a concrete input: empty prefix, a fatal
ValueError (and for the second part a KeyboardInterrupt) on the first
poll. -/
theorem c7_witness :
    (((mainRun none none
        [(⟨ReadResult.err (Exc.exception ("ValueError")),
            WriteOutcome.ok⟩ : IterEnv Int)]).1.countP
          Ev.isSensorExit = 1) ∧
     ((mainRun none none
        [(⟨ReadResult.err (Exc.exception ("ValueError")),
            WriteOutcome.ok⟩ : IterEnv Int)]).1.countP
          Ev.isClosePool = 1) ∧
     (mainRun none none
        [(⟨ReadResult.err (Exc.exception ("ValueError")),
            WriteOutcome.ok⟩ : IterEnv Int)]).2
        = Outcome.fatal (Exc.exception ("ValueError"))) ∧
    (((mainRun none none
        [(⟨ReadResult.err (Exc.baseException ("ValueError")),
            WriteOutcome.ok⟩ : IterEnv Int)]).1.countP
          Ev.isSensorExit = 0) ∧
     ((mainRun none none
        [(⟨ReadResult.err (Exc.baseException ("ValueError")),
            WriteOutcome.ok⟩ : IterEnv Int)]).1.countP
          Ev.isClosePool = 1) ∧
     (mainRun none none
        [(⟨ReadResult.err (Exc.baseException ("ValueError")),
            WriteOutcome.ok⟩ : IterEnv Int)]).2
        = Outcome.fatal (Exc.baseException ("ValueError"))) :=
  c7_fatal_failure_amended [] [] ("ValueError") WriteOutcome.ok WriteOutcome.ok
    (by simp)

end Humidityd
